import Mathlib

/-!
Verification of the conversion-job core of the mp3_2_mp4 repository.

This file is a shallow embedding in Lean 4 of the data model and the
operations of:

  * src/models/audio_file.py      (dataclass AudioFile)
  * src/models/video_file.py      (dataclass VideoFile)
  * src/models/conversion_job.py  (enum ConversionStatus, dataclass
                                   ConversionJob and its methods)
  * src/controllers/conversion_controller.py (class ConversionController)

Modelling conventions:

  * `datetime.now()` is modelled by an explicit `now : Nat` argument; a
    timestamp field `Optional[datetime]` becomes `Option Nat`.
  * Python floats carrying progress percentages are modelled as `Rat`
    (they only ever hold values produced by `max`/`min` clamping, where
    float and rational arithmetic agree).
  * A Python method that can raise is modelled as returning
    `Option PyError × State` (or `Except`): the first component is the
    exception raised, if any, and the second is the state of the object
    after the call, capturing that a raise which happens before any
    assignment leaves the object unchanged.
  * An access to an attribute or a method name that does not exist on
    the receiving object - the controller refers to several names that
    are absent from the model classes - raises `AttributeError` in
    Python and is modelled as the corresponding `PyError`. Each such
    place carries a comment naming the missing attribute and the source
    line where the access occurs.
-/

/-- Python exception values that the embedded code can raise. -/
inductive PyError where
  | attributeError (msg : String)
  | typeError (msg : String)
  | valueError (msg : String)
deriving DecidableEq, Repr

/-- Dataclass `AudioFile` from src/models/audio_file.py: the input MP3
descriptor. Field for field as declared there; `metadata` is the
string-to-string dictionary as an association list, `created_at` a
timestamp. -/
structure AudioFile where
  path : String
  filename : String
  size_bytes : Nat
  duration_seconds : Rat
  sample_rate : Nat
  bitrate : Nat
  metadata : List (String × String)
  created_at : Nat
  is_valid : Bool
deriving DecidableEq, Repr

/-- Dataclass `VideoFile` from src/models/video_file.py: the output MP4
descriptor. Field for field as declared there; note that its parameters
are `path`, `filename`, `source_audio_file`, `video_width`,
`video_height`, `video_fps`, `created_at`, `file_size_bytes` - there is
no `file_path` and no `background_image` parameter. -/
structure VideoFile where
  path : String
  filename : String
  source_audio_file : Option AudioFile
  video_width : Nat := 1280
  video_height : Nat := 720
  video_fps : Nat := 30
  created_at : Option Nat := none
  file_size_bytes : Nat := 0
deriving DecidableEq, Repr

/-- Enum `ConversionStatus` from src/models/conversion_job.py. Its only
members are QUEUED, PROCESSING, COMPLETED, FAILED and CANCELLED; in
particular it has no member named PENDING and none named RUNNING. -/
inductive ConversionStatus where
  | queued
  | processing
  | completed
  | failed
  | cancelled
deriving DecidableEq, Repr

/-- Dataclass `ConversionJob` from src/models/conversion_job.py, field
for field. `id` is the uuid string assigned at creation. -/
structure ConversionJob where
  id : String
  audio_file : Option AudioFile := none
  video_file : Option VideoFile := none
  status : ConversionStatus := ConversionStatus.queued
  progress_percent : Rat := 0
  started_at : Option Nat := none
  completed_at : Option Nat := none
  error_message : Option String := none
  can_cancel : Bool := true
  estimated_remaining_seconds : Int := 0
deriving DecidableEq, Repr

namespace ConversionJob

/-- Method `start_processing` (conversion_job.py lines 53-58). The body
is four unconditional assignments: status, started_at, progress and
can_cancel. There is no check of the current status and no raise. -/
def start_processing (now : Nat) (j : ConversionJob) : ConversionJob :=
  { j with
      status := ConversionStatus.processing
      started_at := some now
      progress_percent := 0
      can_cancel := true }

/-- Method `update_progress` (conversion_job.py lines 60-66). Raises
`ValueError` when the status is not PROCESSING - the raise is the first
statement, so the job is unchanged in that case - and otherwise assigns
the clamped percent and the clamped estimate. -/
def update_progress (percent : Rat) (estimated_remaining : Int)
    (j : ConversionJob) : Option PyError × ConversionJob :=
  if j.status ≠ ConversionStatus.processing then
    (some (PyError.valueError "Cannot update progress for non-processing job"), j)
  else
    (none,
      { j with
          progress_percent := max 0 (min 100 percent)
          estimated_remaining_seconds := max 0 estimated_remaining })

/-- Method `complete_success` (conversion_job.py lines 68-74): five
unconditional assignments. -/
def complete_success (now : Nat) (j : ConversionJob) : ConversionJob :=
  { j with
      status := ConversionStatus.completed
      completed_at := some now
      progress_percent := 100
      can_cancel := false
      error_message := none }

/-- Method `complete_failure` (conversion_job.py lines 76-81): four
unconditional assignments; no other field is touched. -/
def complete_failure (msg : String) (now : Nat) (j : ConversionJob) :
    ConversionJob :=
  { j with
      status := ConversionStatus.failed
      completed_at := some now
      can_cancel := false
      error_message := some msg }

/-- Method `cancel` (conversion_job.py lines 83-91): returns False with
no assignment when `can_cancel` is false, otherwise performs three
assignments and returns True. -/
def cancel (now : Nat) (j : ConversionJob) : Bool × ConversionJob :=
  if ¬ j.can_cancel then (false, j)
  else
    (true,
      { j with
          status := ConversionStatus.cancelled
          completed_at := some now
          can_cancel := false })

/-- Property `is_active` (conversion_job.py lines 93-96). -/
def is_active (j : ConversionJob) : Bool :=
  j.status = ConversionStatus.queued ∨ j.status = ConversionStatus.processing

/-- Property `is_finished` (conversion_job.py lines 98-101). -/
def is_finished (j : ConversionJob) : Bool :=
  j.status = ConversionStatus.completed ∨ j.status = ConversionStatus.failed
    ∨ j.status = ConversionStatus.cancelled

/-- Property `duration_seconds` (conversion_job.py lines 103-110):
None when `started_at` is unset, otherwise the difference between the
end time - `completed_at` when set, the current time otherwise - and
the start time. -/
def duration_seconds (now : Nat) (j : ConversionJob) : Option Int :=
  match j.started_at with
  | none => none
  | some s => some ((j.completed_at.getD now : Int) - (s : Int))

end ConversionJob

/-- The mutable state of `ConversionController`
(conversion_controller.py lines 33-40): the concurrency cap, the
registry `_jobs` (a Python dict file_path -> ConversionJob, modelled as
an association list in insertion order), the FIFO `_job_queue` (head =
front), the `_active_jobs` list and the `_is_running` flag. The logger,
the ffmpeg service handle, the error handler and the callbacks carry no
state the claims touch and are omitted. -/
structure ConversionController where
  max_concurrent : Nat := 2
  jobs : List (String × ConversionJob) := []
  job_queue : List ConversionJob := []
  active_jobs : List ConversionJob := []
  is_running : Bool := false
deriving DecidableEq, Repr

namespace ConversionController

/-- Assignment `d[k] = v` on a Python dict modelled as an association
list: replaces the value in place when the key is present, appends
otherwise. -/
def dictInsert (k : String) (v : ConversionJob) :
    List (String × ConversionJob) → List (String × ConversionJob)
  | [] => [(k, v)]
  | (k0, v0) :: rest =>
      if k0 = k then (k0, v) :: rest else (k0, v0) :: dictInsert k v rest

/-- The Python call `VideoFile(file_path=output_path,
background_image=background_image)` made by `add_conversion`
(conversion_controller.py lines 72-75). The `VideoFile` dataclass
(src/models/video_file.py) takes the parameters `path`, `filename`,
`source_audio_file`, `video_width`, `video_height`, `video_fps`,
`created_at` and `file_size_bytes`; it has no parameter named
`file_path` and none named `background_image`, so this constructor call
raises `TypeError` for every argument value. -/
def videoFileKwargsCall (_output_path : String)
    (_background_image : Option String) : Except PyError VideoFile :=
  Except.error (PyError.typeError
    "VideoFile.init got an unexpected keyword argument file_path")

/-- Method `add_conversion` (conversion_controller.py lines 56-91). Its
first statement is the `VideoFile(file_path=..., background_image=...)`
call, which raises `TypeError` (see `videoFileKwargsCall`), so the
method terminates exceptionally before creating a job, before the
registry store `self._jobs[audio_file.file_path] = job` and before the
enqueue `self._job_queue.put(job)`: the controller state is unchanged
and no job is returned. Were the constructor call ever to return, the
very next effectful statement, the registry store, would itself raise
`AttributeError`, because `AudioFile` (src/models/audio_file.py)
declares the field `path` and no attribute `file_path`; the body
contains no duplicate-submission check at any point. -/
def add_conversion (c : ConversionController) (_audio_file : AudioFile)
    (output_path : String) (background_image : Option String) :
    Option PyError × ConversionController × Option ConversionJob :=
  match videoFileKwargsCall output_path background_image with
  | Except.error e => (some e, c, none)
  | Except.ok _ =>
      (some (PyError.attributeError
        "AudioFile object has no attribute file_path"), c, none)

/-- The pruning statement of the admission loop,
`self._active_jobs = [j for j in self._active_jobs if j.is_running()]`
(conversion_controller.py line 184). `ConversionJob` defines no
attribute `is_running` (its queries are the properties `is_active` and
`is_finished`), so as soon as the comprehension evaluates the filter on
a first element it raises `AttributeError`; only an empty active list
survives the statement. -/
def pruneActiveJobs : List ConversionJob →
    Except PyError (List ConversionJob)
  | [] => Except.ok []
  | _ :: _ => Except.error (PyError.attributeError
      "ConversionJob object has no attribute is_running")

/-- The inner admission while-loop of `_process_queue`
(conversion_controller.py lines 187-202): while the active list is
below `max_concurrent` and the queue is non-empty, dequeue the front
job, dispatch it to a new worker thread running `_execute_conversion`,
and append it to the active list. No status of the dequeued job is
inspected: every dequeued job is dispatched. Returns the new active
list and the remaining queue. -/
def admitFromQueue (max_concurrent : Nat) (active : List ConversionJob) :
    List ConversionJob → List ConversionJob × List ConversionJob
  | [] => (active, [])
  | j :: rest =>
      if active.length < max_concurrent then
        admitFromQueue max_concurrent (active ++ [j]) rest
      else (active, j :: rest)

/-- Method `_execute_conversion` (conversion_controller.py lines
214-271), run by the worker thread for a dispatched job. Its first
state-changing call is `job.start()`; `ConversionJob` defines no
attribute `start` (the method is named `start_processing`), so
`AttributeError` is raised before any field of the job changes. The
handler `except Exception` catches it and calls
`self.error_handler.get_error_info(e, "conversion")`, but `ErrorHandler`
(src/utils/error_handler.py) defines no attribute `get_error_info`
either, so a second `AttributeError` escapes the handler before the
`job.fail(...)` line is reached. The worker therefore terminates
exceptionally with the job unchanged. -/
def execute_conversion (j : ConversionJob) : Option PyError × ConversionJob :=
  (some (PyError.attributeError
    "ErrorHandler object has no attribute get_error_info"), j)

/-- Method `cancel_all_conversions` (conversion_controller.py lines
136-155). It first assigns `self._is_running = False`. It then iterates
over `self._active_jobs` evaluating `job.is_running()`; `ConversionJob`
has no attribute `is_running`, so with a non-empty active list the loop
raises `AttributeError` out of the method (the flag assignment
persists). With an empty active list it reaches the drain loop: each
iteration calls `get_nowait()` and then evaluates
`ConversionStatus.PENDING`; the enum has no member PENDING, so the
comparison raises `AttributeError`, the bare `except:` catches it and
breaks - hence exactly one job is removed from a non-empty queue, its
status is never compared and `job.fail` is never called. -/
def cancel_all_conversions (c : ConversionController) :
    Option PyError × ConversionController :=
  let c1 := { c with is_running := false }
  match c1.active_jobs with
  | _ :: _ =>
      (some (PyError.attributeError
        "ConversionJob object has no attribute is_running"), c1)
  | [] => (none, { c1 with job_queue := c1.job_queue.drop 1 })

/-- Method `get_statistics` (conversion_controller.py lines 165-176).
The dict display evaluates `len(jobs)` for the key "total" and then the
comprehension for the key "pending", whose filter evaluates
`ConversionStatus.PENDING`. With at least one registered job the filter
runs and raises `AttributeError` (the enum has no member PENDING; nor
RUNNING, referenced next). With an empty registry no filter is ever
evaluated and the dict is returned - its keys being "total", "pending",
"running", "completed", "failed", "cancelled", each mapped to 0. -/
def get_statistics (c : ConversionController) :
    Except PyError (List (String × Nat)) :=
  match c.jobs with
  | [] => Except.ok
      [("total", 0), ("pending", 0), ("running", 0),
       ("completed", 0), ("failed", 0), ("cancelled", 0)]
  | _ :: _ => Except.error (PyError.attributeError
      "type object ConversionStatus has no attribute PENDING")

/-- Lookup of `stats[key]` with default 0 on the statistics list. -/
def statLookup (key : String) (stats : List (String × Nat)) : Nat :=
  ((stats.find? (fun p => p.1 = key)).map Prod.snd).getD 0

/-- Method `_on_queue_complete` (conversion_controller.py lines
273-286): clears `_is_running`, calls `get_statistics` - which raises
`AttributeError` whenever the registry is non-empty - and on success
reports `(stats[completed], stats[failed] + stats[cancelled])` through
the `on_all_complete` callback. -/
def on_queue_complete (c : ConversionController) :
    Option PyError × ConversionController × Option (Nat × Nat) :=
  let c1 := { c with is_running := false }
  match get_statistics c1 with
  | Except.error e => (some e, c1, none)
  | Except.ok stats =>
      (none, c1,
        some (statLookup "completed" stats,
              statLookup "failed" stats + statLookup "cancelled" stats))

end ConversionController

/-! Concrete sample values, built through the embedded operations, used
by counterexamples and witnesses below. -/

/-- A concrete validated input descriptor. -/
def sampleAudio : AudioFile :=
  { path := "/music/song.mp3"
    filename := "song.mp3"
    size_bytes := 1024
    duration_seconds := 100
    sample_rate := 44100
    bitrate := 320
    metadata := []
    created_at := 0
    is_valid := true }

/-- A freshly created job, still Queued (all dataclass defaults). -/
def sampleQueuedJob : ConversionJob :=
  { id := "job-a", audio_file := some sampleAudio }

/-- A second freshly created job, still Queued. -/
def qJobB : ConversionJob := { id := "job-b" }

/-- A job driven to Processing by `start_processing` at time 2. -/
def procJob : ConversionJob := ConversionJob.start_processing 2 sampleQueuedJob

/-- A job driven to Completed by `complete_success` at time 3. -/
def completedJob : ConversionJob := ConversionJob.complete_success 3 procJob

/-- A job cancelled while still Queued: `cancel` applied at time 1 to a
freshly created job. -/
def cancelledQueuedJob : ConversionJob :=
  (ConversionJob.cancel 1 { id := "job-x", audio_file := some sampleAudio }).2

/-- A controller state with an empty Active Set and two Queued jobs in
the Pending Queue, both registered. -/
def c3queued : ConversionController :=
  { jobs := [("/music/song.mp3", sampleQueuedJob), ("/music/b.mp3", qJobB)]
    job_queue := [sampleQueuedJob, qJobB]
    active_jobs := []
    is_running := true }

/-- A controller state with one Processing job in the Active Set and an
empty Pending Queue. -/
def c3active : ConversionController :=
  { jobs := [("/music/song.mp3", procJob)]
    job_queue := []
    active_jobs := [procJob]
    is_running := true }

/-! Claim theorems. -/

/-- Claim C1 (code bug evidence): `add_conversion` cannot register any
job at all - every call raises `TypeError` at its first statement,
because it constructs `VideoFile` with the keyword arguments
`file_path` and `background_image`, neither of which is a parameter of
the `VideoFile` dataclass. The controller state is unchanged and no job
is returned, so a repeated submit for the same path can never return
the existing Job as the claim states; the body also contains no
duplicate-submission check. -/
theorem C1_add_conversion_always_raises :
    (ConversionController.add_conversion {} sampleAudio "/music/song_video.mp4" none =
      (some (PyError.typeError
        "VideoFile.init got an unexpected keyword argument file_path"),
       ({} : ConversionController), none)) ∧
    (∀ (c : ConversionController) (a : AudioFile) (out : String)
        (bg : Option String),
      (ConversionController.add_conversion c a out bg).2.1 = c ∧
      (ConversionController.add_conversion c a out bg).2.2 = none) := by
  refine ⟨rfl, ?_⟩
  intro c a out bg
  exact ⟨rfl, rfl⟩

/-- Claim C2 counterexample: a Job cancelled while still Queued is NOT
discarded by the admission loop - one pass of the admission while-loop
over a queue holding only that finished job dispatches it and puts it
into the Active Set. -/
theorem C2_counterexample :
    cancelledQueuedJob.is_finished = true ∧
    ConversionController.admitFromQueue 2 [] [cancelledQueuedJob] =
      ([cancelledQueuedJob], []) := by
  exact ⟨by decide, rfl⟩

/-- Helper: the admission while-loop never removes a job already in the
active list. -/
theorem ConversionController.mem_admitFromQueue_of_mem (m : Nat) :
    ∀ (q active : List ConversionJob) (x : ConversionJob), x ∈ active →
      x ∈ (ConversionController.admitFromQueue m active q).1 := by
  intro q
  induction q with
  | nil =>
      intro active x hx
      simpa [ConversionController.admitFromQueue] using hx
  | cons j rest ih =>
      intro active x hx
      by_cases h : active.length < m
      · simpa [ConversionController.admitFromQueue, h] using
          ih (active ++ [j]) x (List.mem_append_left _ hx)
      · simpa [ConversionController.admitFromQueue, h] using hx

/-- Claim C2 (amended): upon dequeuing a Job that was cancelled while
still Queued, the admission loop does not discard it - it performs no
status check and dispatches every dequeued Job, adding it to the Active
Set whenever a slot is free; the worker body `_execute_conversion` then
raises `AttributeError` before any state change (ConversionJob has no
attribute `start`, and the handler fails on the nonexistent
`ErrorHandler.get_error_info`), so the Job is left unchanged: it never
transitions to Processing and remains Cancelled. -/
theorem C2_admission_dispatches_cancelled (m : Nat)
    (active q : List ConversionJob) (j : ConversionJob)
    (hlen : active.length < m)
    (_hstat : j.status = ConversionStatus.cancelled) :
    j ∈ (ConversionController.admitFromQueue m active (j :: q)).1 ∧
    ConversionController.execute_conversion j =
      (some (PyError.attributeError
        "ErrorHandler object has no attribute get_error_info"), j) := by
  constructor
  · have hj : j ∈ active ++ [j] := List.mem_append_right _ (by simp)
    simpa [ConversionController.admitFromQueue, hlen] using
      ConversionController.mem_admitFromQueue_of_mem m q (active ++ [j]) j hj
  · rfl

/-- Claim C2 witness: the amended theorem applied to the concrete
cancelled job with an empty active list and cap 2. -/
theorem C2_amended_witness :
    ([] : List ConversionJob).length < 2 ∧
    cancelledQueuedJob.status = ConversionStatus.cancelled ∧
    cancelledQueuedJob ∈
      (ConversionController.admitFromQueue 2 [] [cancelledQueuedJob]).1 :=
  ⟨by decide, by decide,
    (C2_admission_dispatches_cancelled 2 [] [] cancelledQueuedJob
      (by decide) (by decide)).1⟩

/-- Claim C3 (code bug evidence): on a controller with an empty Active
Set and two Queued jobs in the Pending Queue, `cancel_all_conversions`
raises nothing but removes exactly one job from the queue - the bare
except catches the `AttributeError` from the nonexistent
`ConversionStatus.PENDING` and breaks the drain - leaving the second
job still enqueued, the registry untouched and no job marked Failed;
and on a controller with a non-empty Active Set it raises
`AttributeError` (ConversionJob has no attribute `is_running`) before
cancelling any active job. -/
theorem C3_cancel_all_evidence :
    (ConversionController.cancel_all_conversions c3queued).1 = none ∧
    (ConversionController.cancel_all_conversions c3queued).2.job_queue = [qJobB] ∧
    qJobB.status = ConversionStatus.queued ∧
    (ConversionController.cancel_all_conversions c3queued).2.jobs = c3queued.jobs ∧
    (ConversionController.cancel_all_conversions c3active).1 =
      some (PyError.attributeError
        "ConversionJob object has no attribute is_running") := by
  exact ⟨rfl, rfl, rfl, rfl, rfl⟩

/-- Claim C4: `update_progress` raises ValueError and leaves the job
unchanged whenever the status is not Processing; in Processing it
succeeds and stores the percent clamped into [0,100] - in particular
-5 is stored as 0 and 150 as 100 on the concrete Processing job. -/
theorem C4_update_progress_spec (j : ConversionJob) (p : Rat) (e : Int) :
    (j.status ≠ ConversionStatus.processing →
      j.update_progress p e =
        (some (PyError.valueError
          "Cannot update progress for non-processing job"), j)) ∧
    (j.status = ConversionStatus.processing →
      j.update_progress p e =
        (none,
          { j with
              progress_percent := max 0 (min 100 p)
              estimated_remaining_seconds := max 0 e })) ∧
    (procJob.update_progress (-5) 0).2.progress_percent = 0 ∧
    (procJob.update_progress 150 0).2.progress_percent = 100 := by
  refine ⟨?_, ?_, by decide, by decide⟩
  · intro h
    simp [ConversionJob.update_progress, h]
  · intro h
    simp [ConversionJob.update_progress, h]

/-- Claim C4 witness: the theorem applied to a concrete Queued job
(error case, job unchanged) and to a concrete Processing job (success
case). -/
theorem C4_witness :
    sampleQueuedJob.update_progress 50 0 =
      (some (PyError.valueError
        "Cannot update progress for non-processing job"), sampleQueuedJob) ∧
    (procJob.update_progress 150 0).1 = none := by
  constructor
  · exact (C4_update_progress_spec sampleQueuedJob 50 0).1 (by decide)
  · rw [(C4_update_progress_spec procJob 150 0).2.1 rfl]

/-- Claim C5: after `complete_success` the status is Completed, the
progress is 100, the error message is cleared, the completion timestamp
is set and cancellation is no longer allowed - for every job and every
completion time. -/
theorem C5_complete_success_spec (j : ConversionJob) (now : Nat) :
    (j.complete_success now).status = ConversionStatus.completed ∧
    (j.complete_success now).progress_percent = 100 ∧
    (j.complete_success now).error_message = none ∧
    (j.complete_success now).completed_at = some now ∧
    (j.complete_success now).can_cancel = false := by
  exact ⟨rfl, rfl, rfl, rfl, rfl⟩

/-- Claim C6: `cancel` is a no-op returning false when cancellation is
not allowed; otherwise it moves the job to Cancelled, stamps the
completion time, clears the flag and returns true - and after any of
the three terminal operations a further `cancel` always returns
false. -/
theorem C6_cancel_spec (j : ConversionJob) (now now2 : Nat) (msg : String) :
    (j.can_cancel = false → j.cancel now = (false, j)) ∧
    (j.can_cancel = true →
      j.cancel now =
        (true,
          { j with
              status := ConversionStatus.cancelled
              completed_at := some now
              can_cancel := false })) ∧
    ((j.cancel now).2.cancel now2).1 = false ∧
    ((j.complete_success now).cancel now2).1 = false ∧
    ((j.complete_failure msg now).cancel now2).1 = false := by
  refine ⟨?_, ?_, ?_, ?_, ?_⟩
  · intro h
    simp [ConversionJob.cancel, h]
  · intro h
    simp [ConversionJob.cancel, h]
  · cases h : j.can_cancel <;>
      simp [ConversionJob.cancel, h]
  · simp [ConversionJob.cancel, ConversionJob.complete_success]
  · simp [ConversionJob.cancel, ConversionJob.complete_failure]

/-- Claim C6 witness: the theorem applied to the concrete Completed job
(whose cancel-allowed flag is false: no-op returning false) and to a
concrete Queued job (cancellation succeeds). -/
theorem C6_witness :
    completedJob.can_cancel = false ∧
    completedJob.cancel 7 = (false, completedJob) ∧
    sampleQueuedJob.can_cancel = true ∧
    (sampleQueuedJob.cancel 7).1 = true := by
  refine ⟨rfl, (C6_cancel_spec completedJob 7 8 "m").1 rfl, rfl, ?_⟩
  rw [(C6_cancel_spec sampleQueuedJob 7 8 "m").2.1 rfl]

/-- Claim C7 counterexample: `start_processing`, called on a job that
reached the terminal Completed state through the embedded operations,
raises nothing - it is a total function with no status check - and
moves the job back to Processing, so an operation does leave a terminal
state and `start` does not fail when the job is not Queued. -/
theorem C7_counterexample :
    completedJob.status = ConversionStatus.completed ∧
    completedJob.is_finished = true ∧
    (completedJob.start_processing 9).status = ConversionStatus.processing := by
  exact ⟨rfl, by decide, rfl⟩

/-- Claim C7 (amended): `start_processing` performs no status check and
cannot fail: called in any state, including the terminal ones, it sets
the status to Processing, the start timestamp, progress 0 and
cancel-allowed true - so a finished Job can re-enter Processing. -/
theorem C7_start_processing_unguarded (j : ConversionJob) (now : Nat) :
    (j.start_processing now).status = ConversionStatus.processing ∧
    (j.start_processing now).started_at = some now ∧
    (j.start_processing now).progress_percent = 0 ∧
    (j.start_processing now).can_cancel = true := by
  exact ⟨rfl, rfl, rfl, rfl⟩

/-- Claim C8 (code bug evidence): on a controller whose registry holds
one job, `get_statistics` raises `AttributeError` - the enum
`ConversionStatus` has no member PENDING - so `_on_queue_complete`
raises too and can never compute the all-complete counts; and even on
an empty registry the returned snapshot is keyed "total", "pending",
"running", "completed", "failed", "cancelled", not "queued" and
"processing". -/
theorem C8_statistics_evidence :
    ConversionController.get_statistics c3active =
      Except.error (PyError.attributeError
        "type object ConversionStatus has no attribute PENDING") ∧
    (ConversionController.on_queue_complete c3active).1 =
      some (PyError.attributeError
        "type object ConversionStatus has no attribute PENDING") ∧
    ConversionController.get_statistics {} =
      Except.ok
        [("total", 0), ("pending", 0), ("running", 0),
         ("completed", 0), ("failed", 0), ("cancelled", 0)] := by
  exact ⟨rfl, rfl, rfl⟩

/-- Claim C9: `complete_failure` changes exactly the status, the
completion timestamp, the cancel-allowed flag and the error message;
the progress value, the start timestamp, both descriptors, the id and
the remaining-time estimate are untouched, so a Failed job keeps the
progress it had reached. -/
theorem C9_complete_failure_frame (j : ConversionJob) (msg : String) (now : Nat) :
    (j.complete_failure msg now).progress_percent = j.progress_percent ∧
    (j.complete_failure msg now).started_at = j.started_at ∧
    (j.complete_failure msg now).audio_file = j.audio_file ∧
    (j.complete_failure msg now).video_file = j.video_file ∧
    (j.complete_failure msg now).id = j.id ∧
    (j.complete_failure msg now).estimated_remaining_seconds =
      j.estimated_remaining_seconds ∧
    (j.complete_failure msg now).status = ConversionStatus.failed ∧
    (j.complete_failure msg now).completed_at = some now ∧
    (j.complete_failure msg now).can_cancel = false ∧
    (j.complete_failure msg now).error_message = some msg := by
  exact ⟨rfl, rfl, rfl, rfl, rfl, rfl, rfl, rfl, rfl, rfl⟩

/-- Claim C10: the duration query returns none exactly when the job was
never started; with a start time s it returns the completion time minus
s when a completion timestamp exists, and the current time minus s
otherwise. -/
theorem C10_duration_seconds_spec (j : ConversionJob) (now : Nat) :
    (j.duration_seconds now = none ↔ j.started_at = none) ∧
    (∀ s c, j.started_at = some s → j.completed_at = some c →
      j.duration_seconds now = some ((c : Int) - (s : Int))) ∧
    (∀ s, j.started_at = some s → j.completed_at = none →
      j.duration_seconds now = some ((now : Int) - (s : Int))) := by
  refine ⟨?_, ?_, ?_⟩
  · cases h : j.started_at <;> simp [ConversionJob.duration_seconds, h]
  · intro s c hs hc
    simp [ConversionJob.duration_seconds, hs, hc]
  · intro s hs hc
    simp [ConversionJob.duration_seconds, hs, hc]

/-- Claim C10 witness: the theorem applied to a never-started job, to a
running job observed at time 5 (duration 5 - 2 = 3) and to a completed
job (duration 3 - 2 = 1). -/
theorem C10_witness :
    sampleQueuedJob.duration_seconds 5 = none ∧
    procJob.duration_seconds 5 = some 3 ∧
    completedJob.duration_seconds 9 = some 1 := by
  refine ⟨?_, ?_, ?_⟩
  · exact (C10_duration_seconds_spec sampleQueuedJob 5).1.mpr rfl
  · rw [(C10_duration_seconds_spec procJob 5).2.2 2 rfl rfl]
    norm_num
  · rw [(C10_duration_seconds_spec completedJob 9).2.1 2 3 rfl rfl]
    norm_num
